import Mathlib

/-!
A shallow embedding of the Grid Definition Engine of
`pyCellProfiler/cellprofiler/modules/definegrid.py` (class `DefineGrid`),
together with theorems settling the specification claims about it.

Modelling conventions:
* Python floats are modelled as rationals (`ℚ`); all arithmetic in the
  module is exact on the inputs considered, so `ℚ` is a faithful carrier.
* Python `int(x)` (and numpy `.astype(int)`) truncates toward zero;
  Python 2 `round(x)` rounds half away from zero.  Both are modelled
  explicitly (`pyInt`, `pyRound`).
* Python exceptions (`ZeroDivisionError` from the spacing divisions,
  the two `RuntimeError`s of `run_automatic`) are modelled with
  `Except GridError`.
* numpy arrays are modelled as lists / lists of lists; `reshape` (row
  major, as numpy's shape assignment), `transpose`, `[::-1, :]`
  (= `List.reverse`) and `[:, ::-1]` (= `List.map List.reverse`) are
  modelled by the corresponding list operations.
* The per-run module dictionary entry `GOOD_GRIDDING` is modelled as an
  `Option CPGridInfo` value threaded explicitly.
-/

namespace DefineGridModel

/-- The four origin choices (`NUM_TOP_LEFT`, `NUM_BOTTOM_LEFT`,
`NUM_TOP_RIGHT`, `NUM_BOTTOM_RIGHT`). -/
inductive Origin where
  | topLeft
  | bottomLeft
  | topRight
  | bottomRight
deriving DecidableEq, Repr

/-- The two numbering orders (`NUM_BY_ROWS = "Rows"`, `NUM_BY_COLUMNS = "Columns"`). -/
inductive NumOrdering where
  | byRows
  | byColumns
deriving DecidableEq, Repr

/-- The failure policies (`FAIL_NO`, `FAIL_ANY_PREVIOUS`, `FAIL_FIRST`). -/
inductive FailChoice where
  | no
  | anyPrevious
  | first
deriving DecidableEq, Repr

/-- The each-or-once toggle (`EO_EACH`, `EO_ONCE`). -/
inductive EachOrOnce where
  | each
  | once
deriving DecidableEq, Repr

/-- The grid settings of the module that the engine reads:
`grid_rows`, `grid_columns`, `origin`, `ordering`. -/
structure GridConfig where
  rows : ℕ
  columns : ℕ
  origin : Origin
  ordering : NumOrdering
deriving DecidableEq, Repr

/-- Errors the engine can raise.  `zeroDivision` is the Python
`ZeroDivisionError` coming from the spacing divisions of
`build_grid_info` (the spec calls it `DegenerateReferencePoints`);
`tooFewGridCells` is the `RuntimeError("... has too few grid cells")`
(the spec's `TooFewReferencePoints`); `noPreviousGrid` is the
`RuntimeError("... there is no previous successful grid")`
(the spec's `NoPriorGridAvailable`). -/
inductive GridError where
  | zeroDivision
  | tooFewGridCells
  | noPreviousGrid
deriving DecidableEq, Repr

/-- Python `int(x)` / numpy `.astype(int)`: truncation toward zero. -/
def pyInt (q : ℚ) : ℤ :=
  if 0 ≤ q then ⌊q⌋ else ⌈q⌉

/-- Python 2 `round(x)`: round half away from zero. -/
def pyRound (q : ℚ) : ℤ :=
  if 0 ≤ q then ⌊q + 1 / 2⌋ else ⌈q - 1 / 2⌉

/-- numpy row-major reshape of a vector `v` into an `a × b` matrix
(`v.shape = (a, b)`): entry `(i, j)` is `v[i * b + j]`. -/
def reshape (a b : ℕ) (v : List ℕ) : List (List ℕ) :=
  (List.range a).map fun i => (List.range b).map fun j => v.getD (i * b + j) 0

/-- `np.transpose` of an `a × b` list matrix, giving a `b × a` matrix. -/
def transposeM (a b : ℕ) (m : List (List ℕ)) : List (List ℕ) :=
  (List.range b).map fun i => (List.range a).map fun j => (m.getD j []).getD i 0

/-- `DefineGrid.canonical_row_and_column` (definegrid.py lines 647-662):
convert a user row/column (1-based, in the configured origin's
convention) into the canonical numbering whose top left corner is (0,0). -/
def canonical_row_and_column (cfg : GridConfig) (row column : ℤ) : ℤ × ℤ :=
  let row' : ℤ :=
    if cfg.origin = Origin.bottomLeft ∨ cfg.origin = Origin.bottomRight then
      (cfg.rows : ℤ) - row
    else
      row - 1
  let column' : ℤ :=
    if cfg.origin = Origin.topRight ∨ cfg.origin = Origin.bottomRight then
      (cfg.columns : ℤ) - column
    else
      column - 1
  (row', column')

/-- The spot table built at definegrid.py lines 633-644:
`np.arange(rows * columns) + 1`, reshaped to `(rows, columns)` when
`ordering == NUM_BY_COLUMNS`, and reshaped to `(columns, rows)` and then
transposed when `ordering == NUM_BY_ROWS`; then the row axis is reversed
(`[::-1, :]`) for the Bottom origins and the column axis is reversed
(`[:, ::-1]`) for the Right origins. -/
def spot_table (cfg : GridConfig) : List (List ℕ) :=
  let base : List ℕ := (List.range (cfg.rows * cfg.columns)).map (· + 1)
  let t : List (List ℕ) :=
    match cfg.ordering with
    | NumOrdering.byColumns => reshape cfg.rows cfg.columns base
    | NumOrdering.byRows => transposeM cfg.columns cfg.rows (reshape cfg.columns cfg.rows base)
  let t : List (List ℕ) :=
    if cfg.origin = Origin.bottomLeft ∨ cfg.origin = Origin.bottomRight then
      t.reverse
    else
      t
  if cfg.origin = Origin.topRight ∨ cfg.origin = Origin.bottomRight then
    t.map List.reverse
  else
    t

/-- The `CPGridInfo` record populated by `DefineGrid.build_grid_info`
(all fields the module assigns, definegrid.py lines 582-645). -/
structure CPGridInfo where
  x_spacing : ℚ
  y_spacing : ℚ
  x_location_of_lowest_x_spot : ℤ
  y_location_of_lowest_y_spot : ℤ
  rows : ℕ
  columns : ℕ
  left_to_right : Bool
  top_to_bottom : Bool
  total_width : ℚ
  total_height : ℚ
  vert_lines_x : List (List ℤ)
  horiz_lines_y : List (List ℤ)
  vert_lines_y : List (List ℤ)
  horiz_lines_x : List (List ℤ)
  x_locations : List ℤ
  y_locations : List ℤ
  spot_table : List (List ℕ)
deriving DecidableEq, Repr, Inhabited

/-- The straight-line part of `DefineGrid.build_grid_info` (lines
587-645), applied after the two spacing divisions succeeded: takes the
canonicalized rows/columns of the two reference points and the two
spacings and populates the `CPGridInfo`. -/
def grid_of (cfg : GridConfig) (first_x first_y : ℚ) (first_row first_col : ℤ)
    (x_spacing y_spacing : ℚ) : CPGridInfo :=
  let xloc : ℤ := pyInt (first_x - (first_col : ℚ) * x_spacing)
  let yloc : ℤ := pyInt (first_y - (first_row : ℚ) * y_spacing)
  let rows : ℕ := cfg.rows
  let columns : ℕ := cfg.columns
  let total_width : ℚ := x_spacing * (columns : ℚ)
  let total_height : ℚ := y_spacing * (rows : ℚ)
  let line_left_x : ℤ := xloc - pyRound (x_spacing / 2)
  let line_top_y : ℤ := yloc - pyRound (y_spacing / 2)
  let vert_x_row : List ℤ :=
    (List.range (columns + 1)).map fun i => pyInt ((i : ℚ) * x_spacing + (line_left_x : ℚ))
  let horiz_y_row : List ℤ :=
    (List.range (rows + 1)).map fun i => pyInt ((i : ℚ) * y_spacing + (line_top_y : ℚ))
  { x_spacing := x_spacing
    y_spacing := y_spacing
    x_location_of_lowest_x_spot := xloc
    y_location_of_lowest_y_spot := yloc
    rows := rows
    columns := columns
    left_to_right := cfg.origin = Origin.topLeft ∨ cfg.origin = Origin.bottomLeft
    top_to_bottom := cfg.origin = Origin.topLeft ∨ cfg.origin = Origin.topRight
    total_width := total_width
    total_height := total_height
    vert_lines_x := [vert_x_row, vert_x_row]
    horiz_lines_y := [horiz_y_row, horiz_y_row]
    vert_lines_y :=
      [(List.range (columns + 1)).map fun _ => line_top_y,
       (List.range (columns + 1)).map fun _ => pyInt ((line_top_y : ℚ) + total_height)]
    horiz_lines_x :=
      [(List.range (rows + 1)).map fun _ => line_left_x,
       (List.range (rows + 1)).map fun _ => pyInt ((line_left_x : ℚ) + total_width)]
    x_locations :=
      (List.range columns).map fun i => pyInt ((xloc : ℚ) + (i : ℚ) * x_spacing)
    y_locations :=
      (List.range rows).map fun i => pyInt ((yloc : ℚ) + (i : ℚ) * y_spacing)
    spot_table := spot_table cfg }

/-- `DefineGrid.build_grid_info` (definegrid.py lines 575-645): the two
user reference points are canonicalized, the spacings are computed by
float division (a `ZeroDivisionError` escapes when the canonical columns,
respectively rows, coincide — the x division is evaluated first), and the
remaining fields are populated by `grid_of`. -/
def build_grid_info (cfg : GridConfig) (first_x first_y : ℚ) (first_row first_col : ℤ)
    (second_x second_y : ℚ) (second_row second_col : ℤ) : Except GridError CPGridInfo :=
  let fc := canonical_row_and_column cfg first_row first_col
  let sc := canonical_row_and_column cfg second_row second_col
  if fc.2 = sc.2 then
    Except.error GridError.zeroDivision
  else if fc.1 = sc.1 then
    Except.error GridError.zeroDivision
  else
    let x_spacing : ℚ := (first_x - second_x) / ((fc.2 : ℚ) - (sc.2 : ℚ))
    let y_spacing : ℚ := (first_y - second_y) / ((fc.1 : ℚ) - (sc.1 : ℚ))
    Except.ok (grid_of cfg first_x first_y fc.1 fc.2 x_spacing y_spacing)

/-- A reference point as entered in coordinates mode: pixel position
plus the user's 1-based row and column. -/
structure RefPoint where
  x : ℚ
  y : ℚ
  row : ℤ
  col : ℤ
deriving DecidableEq, Repr

/-- `DefineGrid.run_coordinates` (lines 409-421). -/
def run_coordinates (cfg : GridConfig) (p1 p2 : RefPoint) : Except GridError CPGridInfo :=
  build_grid_info cfg p1.x p1.y p1.row p1.col p2.x p2.y p2.row p2.col

/-- A centroid as produced by `centers_of_labels`: the first axis is y
(image row), the second is x (image column). -/
structure Centroid where
  y : ℚ
  x : ℚ
deriving DecidableEq, Repr

/-- `np.min` over a nonempty list (the empty case is never reached
behind the too-few-centroids guard). -/
def listMin : List ℚ → ℚ
  | [] => 0
  | [a] => a
  | a :: b :: rest => min a (listMin (b :: rest))

/-- `np.max` over a nonempty list. -/
def listMax : List ℚ → ℚ
  | [] => 0
  | [a] => a
  | a :: b :: rest => max a (listMax (b :: rest))

/-- `DefineGrid.set_good_gridding` (lines 726-731): store the gridding
for reuse upon failure.  The dictionary entry is written when the policy
is `FAIL_ANY_PREVIOUS` or when no entry exists yet. -/
def set_good_gridding (failChoice : FailChoice) (cache : Option CPGridInfo)
    (gridding : CPGridInfo) : Option CPGridInfo :=
  if failChoice = FailChoice.anyPrevious ∨ cache = none then
    some gridding
  else
    cache

/-- `DefineGrid.get_good_gridding` (lines 721-724): the dictionary
lookup, with `None` for a missing entry. -/
def get_good_gridding (cache : Option CPGridInfo) : Option CPGridInfo :=
  cache

/-- `DefineGrid.run_automatic` (lines 373-407): with fewer than 2
centroids, either raise or fall back to the cached gridding; otherwise
pair the extreme centroid coordinates with user rows `1`/`rows` and user
columns `1`/`columns` (swapped for Bottom, respectively Right, origins)
and delegate to `build_grid_info`. -/
def run_automatic (cfg : GridConfig) (failChoice : FailChoice)
    (centroids : List Centroid) (cache : Option CPGridInfo) : Except GridError CPGridInfo :=
  if centroids.length < 2 then
    if failChoice = FailChoice.no then
      Except.error GridError.tooFewGridCells
    else
      match get_good_gridding cache with
      | none => Except.error GridError.noPreviousGrid
      | some result => Except.ok result
  else
    let rowPair : ℤ × ℤ :=
      if cfg.origin = Origin.bottomLeft ∨ cfg.origin = Origin.bottomRight then
        ((cfg.rows : ℤ), 1)
      else
        (1, (cfg.rows : ℤ))
    let colPair : ℤ × ℤ :=
      if cfg.origin = Origin.topRight ∨ cfg.origin = Origin.bottomRight then
        ((cfg.columns : ℤ), 1)
      else
        (1, (cfg.columns : ℤ))
    let first_x := listMin (centroids.map Centroid.x)
    let first_y := listMin (centroids.map Centroid.y)
    let second_x := listMax (centroids.map Centroid.x)
    let second_y := listMax (centroids.map Centroid.y)
    build_grid_info cfg first_x first_y rowPair.1 colPair.1
      second_x second_y rowPair.2 colPair.2

/-- The grid-producing modes of the module reachable without the
interactive mouse dialog: `AM_AUTOMATIC`, and `AM_MANUAL` with
`MAN_COORDINATES` (the `MAN_MOUSE` path runs a wx dialog and is outside
the engine). -/
inductive GridMode where
  | automatic
  | coordinates
deriving DecidableEq, Repr

/-- The gridding computation of `DefineGrid.run` (lines 333-342): the
`EO_ONCE` lookup at lines 333-335 binds `gridding` to the cached value,
but the mode dispatch at lines 336-341 is an independent `if` statement,
so that binding is unconditionally overwritten by the recomputed
gridding; finally the cache is updated by `set_good_gridding`.  Returns
the gridding passed to `workspace.set_grid` together with the new cache
contents. -/
def DefineGrid_run (cfg : GridConfig) (eachOrOnce : EachOrOnce) (failChoice : FailChoice)
    (mode : GridMode) (centroids : List Centroid) (p1 p2 : RefPoint)
    (cache : Option CPGridInfo) : Except GridError (CPGridInfo × Option CPGridInfo) :=
  let gridding0 : Option CPGridInfo :=
    if eachOrOnce = EachOrOnce.once ∧ get_good_gridding cache ≠ none then
      get_good_gridding cache
    else
      none
  let recomputed : Except GridError CPGridInfo :=
    match mode with
    | GridMode.automatic => run_automatic cfg failChoice centroids cache
    | GridMode.coordinates => run_coordinates cfg p1 p2
  -- `gridding0` is dead: the dispatch above reassigns `gridding` on every path
  match recomputed with
  | Except.error e => Except.error e
  | Except.ok gridding =>
      let _ := gridding0
      Except.ok (gridding, set_good_gridding failChoice cache gridding)

/-!  Spec-side definitions used for refinement comparisons. -/

/-- Column-major (Fortran-order) reshape of a vector into an `a × b`
matrix: entry `(i, j)` is `v[j * a + i]`.  A column-major fill of an
`a × b` shape is the same array as the row-major reshape into `(b, a)`
followed by a transpose. -/
def colMajorReshape (a b : ℕ) (v : List ℕ) : List (List ℕ) :=
  (List.range a).map fun i => (List.range b).map fun j => v.getD (j * a + i) 0

/-- The spot-numbering procedure exactly as the specification claims it:
base sequence `1..rows*columns`, reshaped row-major when
`order = ByRows` and column-major (equivalently, reshaped to
`(columns, rows)` and transposed) when `order = ByColumns`, then the row
axis reversed for Bottom origins and the column axis reversed for Right
origins. -/
def spot_table_spec_claimed (cfg : GridConfig) : List (List ℕ) :=
  let base : List ℕ := (List.range (cfg.rows * cfg.columns)).map (· + 1)
  let t : List (List ℕ) :=
    match cfg.ordering with
    | NumOrdering.byRows => reshape cfg.rows cfg.columns base
    | NumOrdering.byColumns => colMajorReshape cfg.rows cfg.columns base
  let t : List (List ℕ) :=
    if cfg.origin = Origin.bottomLeft ∨ cfg.origin = Origin.bottomRight then
      t.reverse
    else
      t
  if cfg.origin = Origin.topRight ∨ cfg.origin = Origin.bottomRight then
    t.map List.reverse
  else
    t

/-- The spot-numbering procedure with the two order roles swapped
relative to `spot_table_spec_claimed`: row-major reshape when
`order = ByColumns`, column-major (reshape to `(columns, rows)` then
transpose) when `order = ByRows`, followed by the same axis reversals. -/
def spot_table_spec_swapped (cfg : GridConfig) : List (List ℕ) :=
  let base : List ℕ := (List.range (cfg.rows * cfg.columns)).map (· + 1)
  let t : List (List ℕ) :=
    match cfg.ordering with
    | NumOrdering.byColumns => reshape cfg.rows cfg.columns base
    | NumOrdering.byRows => colMajorReshape cfg.rows cfg.columns base
  let t : List (List ℕ) :=
    if cfg.origin = Origin.bottomLeft ∨ cfg.origin = Origin.bottomRight then
      t.reverse
    else
      t
  if cfg.origin = Origin.topRight ∨ cfg.origin = Origin.bottomRight then
    t.map List.reverse
  else
    t

/-!  Helper lemmas. -/

lemma getD_map_range {α : Type} (d : α) (f : ℕ → α) {a i : ℕ} (h : i < a) :
    ((List.range a).map f).getD i d = f i := by
  simp [List.getD, List.getElem?_map, List.getElem?_range, h]

lemma build_grid_info_eq_ok (cfg : GridConfig) (fx fy : ℚ) (fr fc : ℤ)
    (sx sy : ℚ) (sr sc : ℤ)
    (hc : (canonical_row_and_column cfg fr fc).2 ≠ (canonical_row_and_column cfg sr sc).2)
    (hr : (canonical_row_and_column cfg fr fc).1 ≠ (canonical_row_and_column cfg sr sc).1) :
    build_grid_info cfg fx fy fr fc sx sy sr sc =
      Except.ok (grid_of cfg fx fy (canonical_row_and_column cfg fr fc).1
        (canonical_row_and_column cfg fr fc).2
        ((fx - sx) / (((canonical_row_and_column cfg fr fc).2 : ℚ) -
          ((canonical_row_and_column cfg sr sc).2 : ℚ)))
        ((fy - sy) / (((canonical_row_and_column cfg fr fc).1 : ℚ) -
          ((canonical_row_and_column cfg sr sc).1 : ℚ)))) := by
  simp only [build_grid_info, if_neg hc, if_neg hr]

lemma toOption_map_ok {α : Type} (f : CPGridInfo → α) (g : CPGridInfo) :
    (Except.ok g : Except GridError CPGridInfo).toOption.map f = some (f g) := rfl

lemma build_grid_info_degenerate (cfg : GridConfig) (fx fy : ℚ) (fr fc : ℤ)
    (sx sy : ℚ) (sr sc : ℤ)
    (h : (canonical_row_and_column cfg fr fc).2 = (canonical_row_and_column cfg sr sc).2 ∨
      (canonical_row_and_column cfg fr fc).1 = (canonical_row_and_column cfg sr sc).1) :
    build_grid_info cfg fx fy fr fc sx sy sr sc = Except.error GridError.zeroDivision := by
  rcases h with h | h
  · simp only [build_grid_info, if_pos h]
  · by_cases h2 : (canonical_row_and_column cfg fr fc).2 = (canonical_row_and_column cfg sr sc).2
    · simp only [build_grid_info, if_pos h2]
    · simp only [build_grid_info, if_neg h2, if_pos h]

lemma grid_of_x_spacing (cfg : GridConfig) (fx fy : ℚ) (fr fc : ℤ) (xs ys : ℚ) :
    (grid_of cfg fx fy fr fc xs ys).x_spacing = xs := rfl

lemma grid_of_y_spacing (cfg : GridConfig) (fx fy : ℚ) (fr fc : ℤ) (xs ys : ℚ) :
    (grid_of cfg fx fy fr fc xs ys).y_spacing = ys := rfl

lemma grid_of_x_location (cfg : GridConfig) (fx fy : ℚ) (fr fc : ℤ) (xs ys : ℚ) :
    (grid_of cfg fx fy fr fc xs ys).x_location_of_lowest_x_spot =
      pyInt (fx - (fc : ℚ) * xs) := rfl

lemma grid_of_y_location (cfg : GridConfig) (fx fy : ℚ) (fr fc : ℤ) (xs ys : ℚ) :
    (grid_of cfg fx fy fr fc xs ys).y_location_of_lowest_y_spot =
      pyInt (fy - (fr : ℚ) * ys) := rfl

lemma grid_of_spot_table (cfg : GridConfig) (fx fy : ℚ) (fr fc : ℤ) (xs ys : ℚ) :
    (grid_of cfg fx fy fr fc xs ys).spot_table = spot_table cfg := rfl

/-!  Claim theorems. -/

/-- C7: for every pair of reference points whose canonical columns or
canonical rows coincide, `build_grid_info` signals the division-by-zero
error (`GridError.zeroDivision`, the `ZeroDivisionError` the spec calls
`DegenerateReferencePoints`) and produces no descriptor; a descriptor is
produced exactly when the two points differ in both canonical row and
canonical column. -/
theorem C7_degenerate_rejection (cfg : GridConfig) (fx fy : ℚ) (fr fc : ℤ)
    (sx sy : ℚ) (sr sc : ℤ) :
    (build_grid_info cfg fx fy fr fc sx sy sr sc = Except.error GridError.zeroDivision ↔
      (canonical_row_and_column cfg fr fc).2 = (canonical_row_and_column cfg sr sc).2 ∨
      (canonical_row_and_column cfg fr fc).1 = (canonical_row_and_column cfg sr sc).1) ∧
    ((∃ g, build_grid_info cfg fx fy fr fc sx sy sr sc = Except.ok g) ↔
      (canonical_row_and_column cfg fr fc).2 ≠ (canonical_row_and_column cfg sr sc).2 ∧
      (canonical_row_and_column cfg fr fc).1 ≠ (canonical_row_and_column cfg sr sc).1) := by
  by_cases h1 :
      (canonical_row_and_column cfg fr fc).2 = (canonical_row_and_column cfg sr sc).2
  · rw [build_grid_info_degenerate cfg fx fy fr fc sx sy sr sc (Or.inl h1)]
    simp [h1]
  · by_cases h2 :
        (canonical_row_and_column cfg fr fc).1 = (canonical_row_and_column cfg sr sc).1
    · rw [build_grid_info_degenerate cfg fx fy fr fc sx sy sr sc (Or.inr h2)]
      simp [h1, h2]
    · rw [build_grid_info_eq_ok cfg fx fy fr fc sx sy sr sc h1 h2]
      simp [h1, h2]

/-- Configuration used in several concrete counterexamples:
2 rows, 2 columns, top-left origin, numbering by columns. -/
def cfg2x2 : GridConfig :=
  ⟨2, 2, Origin.topLeft, NumOrdering.byColumns⟩

/-- C5 counterexample: with the 2 × 2 top-left configuration and the
reference points (x=5, y=0, row=1, col=1) and (x=5, y=10, row=2, col=2),
the two points differ in canonical column (0 vs 1) and in canonical row
(0 vs 1), yet `build_grid_info` constructs a descriptor whose
`x_spacing` is 0, refuting the claimed invariant `xSpacing ≠ 0`. -/
theorem C5_counterexample :
    (canonical_row_and_column cfg2x2 1 1).2 ≠ (canonical_row_and_column cfg2x2 2 2).2 ∧
    (canonical_row_and_column cfg2x2 1 1).1 ≠ (canonical_row_and_column cfg2x2 2 2).1 ∧
    (build_grid_info cfg2x2 5 0 1 1 5 10 2 2).toOption.map CPGridInfo.x_spacing =
      some 0 := by
  refine ⟨by decide, by decide, ?_⟩
  rw [build_grid_info_eq_ok cfg2x2 5 0 1 1 5 10 2 2 (by decide) (by decide),
    toOption_map_ok]
  simp only [Option.some.injEq]
  show (5 - 5) / (((canonical_row_and_column cfg2x2 1 1).2 : ℚ) -
    ((canonical_row_and_column cfg2x2 2 2).2 : ℚ)) = 0
  norm_num

/-- C5 (amended): a descriptor is produced whenever the two reference
points differ in canonical column and in canonical row, and its
`x_spacing` (resp. `y_spacing`) is nonzero provided the two points also
have distinct pixel x (resp. y) coordinates; equality of a pixel
coordinate yields a zero spacing, so the degeneracy guard alone does not
enforce the claimed invariant. -/
theorem C5_nonzero_spacing_amended (cfg : GridConfig) (fx fy : ℚ) (fr fc : ℤ)
    (sx sy : ℚ) (sr sc : ℤ)
    (hc : (canonical_row_and_column cfg fr fc).2 ≠ (canonical_row_and_column cfg sr sc).2)
    (hr : (canonical_row_and_column cfg fr fc).1 ≠ (canonical_row_and_column cfg sr sc).1)
    (hx : fx ≠ sx) (hy : fy ≠ sy) :
    ∃ g, build_grid_info cfg fx fy fr fc sx sy sr sc = Except.ok g ∧
      g.x_spacing ≠ 0 ∧ g.y_spacing ≠ 0 := by
  refine ⟨_, build_grid_info_eq_ok cfg fx fy fr fc sx sy sr sc hc hr, ?_, ?_⟩
  · show (fx - sx) / (((canonical_row_and_column cfg fr fc).2 : ℚ) -
      ((canonical_row_and_column cfg sr sc).2 : ℚ)) ≠ 0
    exact div_ne_zero (sub_ne_zero.mpr hx)
      (sub_ne_zero.mpr (fun h => hc (by exact_mod_cast h)))
  · show (fy - sy) / (((canonical_row_and_column cfg fr fc).1 : ℚ) -
      ((canonical_row_and_column cfg sr sc).1 : ℚ)) ≠ 0
    exact div_ne_zero (sub_ne_zero.mpr hy)
      (sub_ne_zero.mpr (fun h => hr (by exact_mod_cast h)))

/-- C5 witness: the amended nonzero-spacing theorem applied at the
2 × 2 top-left configuration with reference points (0, 0, 1, 1) and
(10, 20, 2, 2). -/
theorem C5_witness :
    ∃ g, build_grid_info cfg2x2 0 0 1 1 10 20 2 2 = Except.ok g ∧
      g.x_spacing ≠ 0 ∧ g.y_spacing ≠ 0 :=
  C5_nonzero_spacing_amended cfg2x2 0 0 1 1 10 20 2 2
    (by decide) (by decide) (by norm_num) (by norm_num)

/-- Configuration for the C6 counterexample: 4 rows, 4 columns,
top-left origin, numbering by columns. -/
def cfg4x4 : GridConfig :=
  ⟨4, 4, Origin.topLeft, NumOrdering.byColumns⟩

/-- C6 counterexample: with the 4 × 4 top-left configuration and
reference points (x=10, y=10, row=2, col=2) and (x=15, y=15, row=4,
col=4), the canonical points are (1,1) and (3,3), the spacing is 5/2,
and the exact extrapolation to canonical column zero is
`10 − 1 × 5/2 = 15/2`; the engine instead stores the truncated integer
7, so `originX` is not the exact real-valued extrapolation. -/
theorem C6_counterexample :
    (build_grid_info cfg4x4 10 10 2 2 15 15 4 4).toOption.map
      (fun g => ((g.x_location_of_lowest_x_spot : ℚ), g.x_spacing)) =
        some (7, 5 / 2) ∧
    (10 : ℚ) - ((canonical_row_and_column cfg4x4 2 2).2 : ℚ) * (5 / 2) = 15 / 2 ∧
    (7 : ℚ) ≠ 15 / 2 := by
  refine ⟨?_, ?_, by norm_num⟩
  · rw [build_grid_info_eq_ok cfg4x4 10 10 2 2 15 15 4 4 (by decide) (by decide),
      toOption_map_ok]
    simp only [Option.some.injEq, Prod.mk.injEq]
    constructor
    · show ((pyInt (10 - ((canonical_row_and_column cfg4x4 2 2).2 : ℚ) *
          ((10 - 15) / (((canonical_row_and_column cfg4x4 2 2).2 : ℚ) -
            ((canonical_row_and_column cfg4x4 4 4).2 : ℚ)))) : ℤ) : ℚ) = 7
      simp [canonical_row_and_column, cfg4x4, pyInt]
      norm_num
    · show (10 - 15) / (((canonical_row_and_column cfg4x4 2 2).2 : ℚ) -
        ((canonical_row_and_column cfg4x4 4 4).2 : ℚ)) = 5 / 2
      simp [canonical_row_and_column, cfg4x4]
      norm_num
  · simp [canonical_row_and_column, cfg4x4]
    norm_num

/-- C6 (amended): for reference points with distinct canonical rows and
columns, the exact real-valued extrapolations to canonical row/column
zero from the two points agree (`p1.x − p1.col × s = p2.x − p2.col × s`,
an exact linear fit), but the stored `originX`/`originY` are the Python
`int()` truncations toward zero of those extrapolations, not the real
values themselves. -/
theorem C6_origin_extrapolation_amended (cfg : GridConfig) (fx fy : ℚ) (fr fc : ℤ)
    (sx sy : ℚ) (sr sc : ℤ)
    (hc : (canonical_row_and_column cfg fr fc).2 ≠ (canonical_row_and_column cfg sr sc).2)
    (hr : (canonical_row_and_column cfg fr fc).1 ≠ (canonical_row_and_column cfg sr sc).1) :
    ∃ g, build_grid_info cfg fx fy fr fc sx sy sr sc = Except.ok g ∧
      g.x_location_of_lowest_x_spot =
        pyInt (fx - ((canonical_row_and_column cfg fr fc).2 : ℚ) * g.x_spacing) ∧
      g.y_location_of_lowest_y_spot =
        pyInt (fy - ((canonical_row_and_column cfg fr fc).1 : ℚ) * g.y_spacing) ∧
      fx - ((canonical_row_and_column cfg fr fc).2 : ℚ) * g.x_spacing =
        sx - ((canonical_row_and_column cfg sr sc).2 : ℚ) * g.x_spacing ∧
      fy - ((canonical_row_and_column cfg fr fc).1 : ℚ) * g.y_spacing =
        sy - ((canonical_row_and_column cfg sr sc).1 : ℚ) * g.y_spacing := by
  refine ⟨_, build_grid_info_eq_ok cfg fx fy fr fc sx sy sr sc hc hr, rfl, rfl, ?_, ?_⟩
  · have hcq : ((canonical_row_and_column cfg fr fc).2 : ℚ) ≠
        ((canonical_row_and_column cfg sr sc).2 : ℚ) := by
      exact_mod_cast hc
    show fx - ((canonical_row_and_column cfg fr fc).2 : ℚ) *
        ((fx - sx) / (((canonical_row_and_column cfg fr fc).2 : ℚ) -
          ((canonical_row_and_column cfg sr sc).2 : ℚ))) =
      sx - ((canonical_row_and_column cfg sr sc).2 : ℚ) *
        ((fx - sx) / (((canonical_row_and_column cfg fr fc).2 : ℚ) -
          ((canonical_row_and_column cfg sr sc).2 : ℚ)))
    field_simp [sub_ne_zero.mpr hcq]
    ring
  · have hrq : ((canonical_row_and_column cfg fr fc).1 : ℚ) ≠
        ((canonical_row_and_column cfg sr sc).1 : ℚ) := by
      exact_mod_cast hr
    show fy - ((canonical_row_and_column cfg fr fc).1 : ℚ) *
        ((fy - sy) / (((canonical_row_and_column cfg fr fc).1 : ℚ) -
          ((canonical_row_and_column cfg sr sc).1 : ℚ))) =
      sy - ((canonical_row_and_column cfg sr sc).1 : ℚ) *
        ((fy - sy) / (((canonical_row_and_column cfg fr fc).1 : ℚ) -
          ((canonical_row_and_column cfg sr sc).1 : ℚ)))
    field_simp [sub_ne_zero.mpr hrq]
    ring

/-- C6 witness: the amended origin-extrapolation theorem applied at the
4 × 4 top-left configuration with reference points (10, 10, 2, 2) and
(15, 15, 4, 4). -/
theorem C6_witness :
    ∃ g, build_grid_info cfg4x4 10 10 2 2 15 15 4 4 = Except.ok g ∧
      g.x_location_of_lowest_x_spot =
        pyInt (10 - ((canonical_row_and_column cfg4x4 2 2).2 : ℚ) * g.x_spacing) ∧
      g.y_location_of_lowest_y_spot =
        pyInt (10 - ((canonical_row_and_column cfg4x4 2 2).1 : ℚ) * g.y_spacing) ∧
      (10 : ℚ) - ((canonical_row_and_column cfg4x4 2 2).2 : ℚ) * g.x_spacing =
        15 - ((canonical_row_and_column cfg4x4 4 4).2 : ℚ) * g.x_spacing ∧
      (10 : ℚ) - ((canonical_row_and_column cfg4x4 2 2).1 : ℚ) * g.y_spacing =
        15 - ((canonical_row_and_column cfg4x4 4 4).1 : ℚ) * g.y_spacing :=
  C6_origin_extrapolation_amended cfg4x4 10 10 2 2 15 15 4 4 (by decide) (by decide)

/-- C3 counterexample: under policy `FAIL_NO` (the spec's "None") with
an empty cache, `set_good_gridding` stores the successful descriptor —
refuting "under policy None a successful descriptor is never stored in
the cache". -/
theorem C3_counterexample :
    set_good_gridding FailChoice.no none (default : CPGridInfo) =
      some (default : CPGridInfo) ∧
    some (default : CPGridInfo) ≠ (none : Option CPGridInfo) := by
  constructor
  · simp [set_good_gridding]
  · simp

/-- C3 (amended): `set_good_gridding` overwrites the cache always under
`FAIL_ANY_PREVIOUS`, and writes exactly when the cache is empty under
both `FAIL_FIRST` and `FAIL_NO` — so under policy None the first
successful descriptor is stored just as under First, not "never
stored". -/
theorem C3_record_success_amended (cache : Option CPGridInfo) (g : CPGridInfo) :
    set_good_gridding FailChoice.anyPrevious cache g = some g ∧
    set_good_gridding FailChoice.first none g = some g ∧
    set_good_gridding FailChoice.no none g = some g ∧
    ∀ g0 : CPGridInfo,
      set_good_gridding FailChoice.first (some g0) g = some g0 ∧
      set_good_gridding FailChoice.no (some g0) g = some g0 := by
  refine ⟨?_, ?_, ?_, fun g0 => ⟨?_, ?_⟩⟩ <;> simp [set_good_gridding]

/-- C8: in automatic mode with fewer than 2 centroids, policy `FAIL_NO`
raises the too-few-grid-cells failure (the spec's
`TooFewReferencePoints`); under `FAIL_ANY_PREVIOUS` or `FAIL_FIRST` the
cached gridding is returned unchanged when present, and the
no-previous-grid failure (the spec's `NoPriorGridAvailable`) is raised
when the cache is empty. -/
theorem C8_too_few_centroids (cfg : GridConfig) (failChoice : FailChoice)
    (centroids : List Centroid) (cache : Option CPGridInfo)
    (h : centroids.length < 2) :
    (failChoice = FailChoice.no →
      run_automatic cfg failChoice centroids cache =
        Except.error GridError.tooFewGridCells) ∧
    (failChoice ≠ FailChoice.no →
      (cache = none →
        run_automatic cfg failChoice centroids cache =
          Except.error GridError.noPreviousGrid) ∧
      ∀ g, cache = some g →
        run_automatic cfg failChoice centroids cache = Except.ok g) := by
  refine ⟨fun hf => ?_, fun hf => ⟨fun hc => ?_, fun g hc => ?_⟩⟩
  · simp [run_automatic, get_good_gridding, h, hf]
  · simp [run_automatic, get_good_gridding, h, hf, hc]
  · simp [run_automatic, get_good_gridding, h, hf, hc]

/-- C8 witness: the too-few-centroids theorem applied to the single
centroid (x=5, y=5), under policy `FAIL_NO` with an empty cache and
under policy `FAIL_ANY_PREVIOUS` with a cached descriptor. -/
theorem C8_witness :
    ([⟨5, 5⟩] : List Centroid).length < 2 ∧
    run_automatic cfg2x2 FailChoice.no [⟨5, 5⟩] none =
      Except.error GridError.tooFewGridCells ∧
    run_automatic cfg2x2 FailChoice.anyPrevious [⟨5, 5⟩]
        (some (default : CPGridInfo)) = Except.ok (default : CPGridInfo) :=
  ⟨by decide,
   (C8_too_few_centroids cfg2x2 FailChoice.no [⟨5, 5⟩] none (by decide)).1 rfl,
   ((C8_too_few_centroids cfg2x2 FailChoice.anyPrevious [⟨5, 5⟩]
     (some default) (by decide)).2 (by decide)).2 default rfl⟩

/-- C10: in automatic mode, a configuration with `columns = 1` (or
`rows = 1`) makes every input of 2 or more centroids fail with the
division-by-zero error — the two synthetic reference points receive
user columns 1 and `columns` (rows 1 and `rows`), which canonicalize to
the same value when the count is 1 — so no descriptor is ever produced
for such configurations. -/
theorem C10_single_row_or_column_always_fails (cfg : GridConfig)
    (failChoice : FailChoice) (centroids : List Centroid)
    (cache : Option CPGridInfo) (hcfg : cfg.columns = 1 ∨ cfg.rows = 1)
    (hlen : 2 ≤ centroids.length) :
    run_automatic cfg failChoice centroids cache =
      Except.error GridError.zeroDivision := by
  have hguard : ¬ centroids.length < 2 := by omega
  simp only [run_automatic, if_neg hguard]
  apply build_grid_info_degenerate
  rcases hcfg with h | h
  · left
    by_cases ho : cfg.origin = Origin.topRight ∨ cfg.origin = Origin.bottomRight <;>
      simp [canonical_row_and_column, ho, h]
  · right
    by_cases ho : cfg.origin = Origin.bottomLeft ∨ cfg.origin = Origin.bottomRight <;>
      simp [canonical_row_and_column, ho, h]

/-- C10 witness: a 3 × 1 top-left configuration with two centroids
fails with the division-by-zero error. -/
theorem C10_witness :
    ((⟨3, 1, Origin.topLeft, NumOrdering.byColumns⟩ : GridConfig).columns = 1 ∨
      (⟨3, 1, Origin.topLeft, NumOrdering.byColumns⟩ : GridConfig).rows = 1) ∧
    2 ≤ ([⟨0, 0⟩, ⟨7, 5⟩] : List Centroid).length ∧
    run_automatic ⟨3, 1, Origin.topLeft, NumOrdering.byColumns⟩ FailChoice.no
        [⟨0, 0⟩, ⟨7, 5⟩] none = Except.error GridError.zeroDivision :=
  ⟨Or.inl rfl, by decide,
   C10_single_row_or_column_always_fails ⟨3, 1, Origin.topLeft, NumOrdering.byColumns⟩
     FailChoice.no [⟨0, 0⟩, ⟨7, 5⟩] none (Or.inl rfl) (by decide)⟩

/-- Configuration for the C4 once-per-run scenario. -/
def cfgC4 : GridConfig := ⟨2, 2, Origin.topLeft, NumOrdering.byColumns⟩

/-- Centroids of the first image of the C4 scenario. -/
def centroidsA : List Centroid := [⟨0, 0⟩, ⟨10, 10⟩]

/-- Centroids of the second image of the C4 scenario: same grid shape,
twice the spacing. -/
def centroidsB : List Centroid := [⟨0, 0⟩, ⟨20, 20⟩]

lemma run_automatic_stepA (failChoice : FailChoice) (cache : Option CPGridInfo) :
    run_automatic cfgC4 failChoice centroidsA cache =
      build_grid_info cfgC4 0 0 1 1 10 10 2 2 := by
  have hguard : ¬ (centroidsA.length < 2) := by decide
  simp only [run_automatic, if_neg hguard]
  simp [centroidsA, listMin, listMax, cfgC4, min_def, max_def]

lemma run_automatic_stepB (failChoice : FailChoice) (cache : Option CPGridInfo) :
    run_automatic cfgC4 failChoice centroidsB cache =
      build_grid_info cfgC4 0 0 1 1 20 20 2 2 := by
  have hguard : ¬ (centroidsB.length < 2) := by decide
  simp only [run_automatic, if_neg hguard]
  simp [centroidsB, listMin, listMax, cfgC4, min_def, max_def]

/-- The descriptor successfully computed from the first image of the C4
scenario (this is what `set_good_gridding` caches after image 1). -/
def gFirst : CPGridInfo :=
  (run_automatic cfgC4 FailChoice.anyPrevious centroidsA none).toOption.getD default

lemma gFirst_x_spacing : gFirst.x_spacing = 10 := by
  unfold gFirst
  rw [run_automatic_stepA,
    build_grid_info_eq_ok cfgC4 0 0 1 1 10 10 2 2 (by decide) (by decide)]
  simp only [Except.toOption, Option.getD, grid_of_x_spacing]
  simp [canonical_row_and_column, cfgC4]

/-- C4: evaluation of `DefineGrid.run` at the failing input of the
once-per-run claim.  With `EO_ONCE` and the successful grid of image 1
(`gFirst`, spacing 10) already cached, running on image 2 (whose
centroids give spacing 20) returns the freshly recomputed grid with
spacing 20 instead of reusing the cached descriptor: the cached lookup
at lines 333-335 of definegrid.py is overwritten because the mode
dispatch at line 336 is an `if`, not an `elif`.  This contradicts the
module's own documentation of the setting ("define the location of the
marker spots ONCE for all of the image cycles"). -/
theorem C4_once_reuse_code_bug :
    (DefineGrid_run cfgC4 EachOrOnce.once FailChoice.anyPrevious GridMode.automatic
        centroidsB ⟨0, 0, 1, 1⟩ ⟨0, 0, 1, 1⟩ (some gFirst)).toOption.map
      (fun r => r.1.x_spacing) = some 20 ∧
    gFirst.x_spacing = 10 := by
  constructor
  · simp only [DefineGrid_run]
    rw [run_automatic_stepB,
      build_grid_info_eq_ok cfgC4 0 0 1 1 20 20 2 2 (by decide) (by decide)]
    simp only [Except.toOption, Option.map, grid_of_x_spacing]
    simp [canonical_row_and_column, cfgC4]
  · exact gFirst_x_spacing

/-!  Spot-table structure lemmas. -/

lemma transposeM_reshape (a b : ℕ) (v : List ℕ) :
    transposeM a b (reshape a b v) = colMajorReshape b a v := by
  unfold transposeM reshape colMajorReshape
  apply List.map_congr_left
  intro i hi
  apply List.map_congr_left
  intro j hj
  rw [getD_map_range [] _ (List.mem_range.mp hj),
    getD_map_range 0 _ (List.mem_range.mp hi)]

lemma reshape_base (r c : ℕ) :
    reshape r c ((List.range (r * c)).map (· + 1)) =
      (List.range r).map fun i => (List.range c).map fun j => i * c + j + 1 := by
  unfold reshape
  apply List.map_congr_left
  intro i hi
  apply List.map_congr_left
  intro j hj
  have hi' := List.mem_range.mp hi
  have hj' := List.mem_range.mp hj
  have hb : i * c + j < r * c := by
    have h1 : i * c + j < (i + 1) * c := by
      calc i * c + j < i * c + c := Nat.add_lt_add_left hj' (i * c)
        _ = (i + 1) * c := by ring
    exact lt_of_lt_of_le h1 (Nat.mul_le_mul_right c hi')
  exact getD_map_range 0 _ hb

lemma colMajor_base (a b : ℕ) :
    colMajorReshape a b ((List.range (a * b)).map (· + 1)) =
      (List.range a).map fun i => (List.range b).map fun j => j * a + i + 1 := by
  unfold colMajorReshape
  apply List.map_congr_left
  intro i hi
  apply List.map_congr_left
  intro j hj
  have hi' := List.mem_range.mp hi
  have hj' := List.mem_range.mp hj
  have hb : j * a + i < a * b := by
    have h1 : j * a + i < (j + 1) * a := by
      calc j * a + i < j * a + a := Nat.add_lt_add_left hi' (j * a)
        _ = (j + 1) * a := by ring
    calc j * a + i < (j + 1) * a := h1
      _ ≤ b * a := Nat.mul_le_mul_right a hj'
      _ = a * b := Nat.mul_comm b a
  exact getD_map_range 0 _ hb

lemma reverse_map_range {α : Type} (n : ℕ) (f : ℕ → α) :
    ((List.range n).map f).reverse = (List.range n).map fun i => f (n - 1 - i) := by
  apply List.ext_getElem?
  intro i
  by_cases h : i < n
  · have hlen : i < ((List.range n).map f).length := by simpa using h
    rw [List.getElem?_reverse hlen]
    have h2 : ((List.range n).map f).length - 1 - i = n - 1 - i := by simp
    rw [h2]
    have h3 : n - 1 - i < n := by omega
    simp [List.getElem?_map, List.getElem?_range, h, h3]
  · rw [List.getElem?_eq_none (by simpa using Nat.le_of_not_lt h),
      List.getElem?_eq_none (by simpa using Nat.le_of_not_lt h)]

lemma map_list_reverse_map_range {α : Type} (n m : ℕ) (g : ℕ → ℕ → α) :
    ((List.range n).map fun i => (List.range m).map fun j => g i j).map List.reverse =
      (List.range n).map fun i => (List.range m).map fun j => g i (m - 1 - j) := by
  rw [List.map_map]
  apply List.map_congr_left
  intro i _
  exact reverse_map_range m (g i)

/-- Closed-form entry of the spot table at canonical position (i, j):
the row index is reflected for Bottom origins and the column index for
Right origins, then numbered down columns first (`NUM_BY_ROWS`) or along
rows first (`NUM_BY_COLUMNS`). -/
def spotEntry (cfg : GridConfig) (i j : ℕ) : ℕ :=
  let i2 : ℕ :=
    if cfg.origin = Origin.bottomLeft ∨ cfg.origin = Origin.bottomRight then
      cfg.rows - 1 - i
    else
      i
  let j2 : ℕ :=
    if cfg.origin = Origin.topRight ∨ cfg.origin = Origin.bottomRight then
      cfg.columns - 1 - j
    else
      j
  match cfg.ordering with
  | NumOrdering.byColumns => i2 * cfg.columns + j2 + 1
  | NumOrdering.byRows => j2 * cfg.rows + i2 + 1

lemma spot_table_eq_map (cfg : GridConfig) :
    spot_table cfg = (List.range cfg.rows).map fun i =>
      (List.range cfg.columns).map fun j => spotEntry cfg i j := by
  obtain ⟨r, c, o, ord⟩ := cfg
  cases ord <;>
    by_cases hb : o = Origin.bottomLeft ∨ o = Origin.bottomRight <;>
      by_cases hr : o = Origin.topRight ∨ o = Origin.bottomRight <;>
        simp only [spot_table, spotEntry, hb, hr, if_true, if_false,
          transposeM_reshape, reshape_base, colMajor_base, reverse_map_range,
          map_list_reverse_map_range, ite_true, ite_false]

lemma mul_add_inj {c x y x' y' : ℕ} (hy : y < c) (hy' : y' < c)
    (h : x * c + y = x' * c + y') : x = x' ∧ y = y' := by
  have hc : 0 < c := lt_of_le_of_lt (Nat.zero_le y) hy
  have h1 : (c * x + y) / c = x := by
    rw [Nat.mul_add_div hc, Nat.div_eq_of_lt hy, Nat.add_zero]
  have h2 : (c * x' + y') / c = x' := by
    rw [Nat.mul_add_div hc, Nat.div_eq_of_lt hy', Nat.add_zero]
  have h3 : c * x + y = c * x' + y' := by
    rw [Nat.mul_comm c x, Nat.mul_comm c x']
    exact h
  have h4 : x = x' := by rw [← h1, ← h2, h3]
  constructor
  · exact h4
  · have : x * c = x' * c := by rw [h4]
    omega

lemma mul_add_bound {x y a b : ℕ} (hx : x < a) (hy : y < b) :
    x * b + y + 1 ≤ a * b := by
  have h2 : x * b + b = (x + 1) * b := by ring
  have h3 : (x + 1) * b ≤ a * b := Nat.mul_le_mul_right b hx
  omega

lemma spotEntry_injOn (cfg : GridConfig) {i j i' j' : ℕ}
    (hi : i < cfg.rows) (hj : j < cfg.columns)
    (hi' : i' < cfg.rows) (hj' : j' < cfg.columns)
    (h : spotEntry cfg i j = spotEntry cfg i' j') : i = i' ∧ j = j' := by
  obtain ⟨r, c, o, ord⟩ := cfg
  replace hi : i < r := hi
  replace hj : j < c := hj
  replace hi' : i' < r := hi'
  replace hj' : j' < c := hj'
  cases ord <;>
    by_cases hb : o = Origin.bottomLeft ∨ o = Origin.bottomRight <;>
      by_cases hrr : o = Origin.topRight ∨ o = Origin.bottomRight <;>
        simp only [spotEntry, hb, hrr, ite_true, ite_false] at h
  all_goals
    obtain ⟨e1, e2⟩ := mul_add_inj (by omega) (by omega) (Nat.add_right_cancel h)
  all_goals omega

lemma spotEntry_bounds (cfg : GridConfig) {i j : ℕ}
    (hi : i < cfg.rows) (hj : j < cfg.columns) :
    1 ≤ spotEntry cfg i j ∧ spotEntry cfg i j ≤ cfg.rows * cfg.columns := by
  obtain ⟨r, c, o, ord⟩ := cfg
  replace hi : i < r := hi
  replace hj : j < c := hj
  cases ord <;>
    by_cases hb : o = Origin.bottomLeft ∨ o = Origin.bottomRight <;>
      by_cases hrr : o = Origin.topRight ∨ o = Origin.bottomRight <;>
        simp only [spotEntry, hb, hrr, ite_true, ite_false]
  all_goals constructor
  all_goals try omega
  all_goals first
    | (apply mul_add_bound <;> omega)
    | (rw [Nat.mul_comm r c]; apply mul_add_bound <;> omega)

lemma spotEntry_surj (cfg : GridConfig) {n : ℕ}
    (h1 : 1 ≤ n) (h2 : n ≤ cfg.rows * cfg.columns) :
    ∃ i, i < cfg.rows ∧ ∃ j, j < cfg.columns ∧ spotEntry cfg i j = n := by
  classical
  have hinj : Set.InjOn (fun p : ℕ × ℕ => spotEntry cfg p.1 p.2)
      ↑(Finset.range cfg.rows ×ˢ Finset.range cfg.columns) := by
    intro p hp q hq hpq
    simp [Finset.mem_product] at hp hq
    obtain ⟨e1, e2⟩ := spotEntry_injOn cfg hp.1 hp.2 hq.1 hq.2 hpq
    exact Prod.ext e1 e2
  have himg : (Finset.range cfg.rows ×ˢ Finset.range cfg.columns).image
      (fun p : ℕ × ℕ => spotEntry cfg p.1 p.2) ⊆
      Finset.Icc 1 (cfg.rows * cfg.columns) := by
    intro m hm
    simp [Finset.mem_product] at hm
    obtain ⟨i, j, ⟨hi, hj⟩, rfl⟩ := hm
    have hb := spotEntry_bounds cfg hi hj
    simp [Finset.mem_Icc]
    exact hb
  have heq : (Finset.range cfg.rows ×ˢ Finset.range cfg.columns).image
      (fun p : ℕ × ℕ => spotEntry cfg p.1 p.2) =
      Finset.Icc 1 (cfg.rows * cfg.columns) := by
    apply Finset.eq_of_subset_of_card_le himg
    rw [Nat.card_Icc, Finset.card_image_of_injOn hinj]
    simp
  have hnmem : n ∈ (Finset.range cfg.rows ×ˢ Finset.range cfg.columns).image
      (fun p : ℕ × ℕ => spotEntry cfg p.1 p.2) := by
    rw [heq]
    simp [Finset.mem_Icc]
    exact ⟨h1, h2⟩
  simp [Finset.mem_product] at hnmem
  obtain ⟨i, j, ⟨hi, hj⟩, he⟩ := hnmem
  exact ⟨i, hi, j, hj, he⟩

lemma spot_table_flatten_nodup (cfg : GridConfig) :
    (spot_table cfg).flatten.Nodup := by
  rw [spot_table_eq_map, List.nodup_flatten]
  constructor
  · intro l hl
    simp only [List.mem_map, List.mem_range] at hl
    obtain ⟨i, hi, rfl⟩ := hl
    refine List.Nodup.map_on ?_ (List.nodup_range cfg.columns)
    intro x hx y hy hxy
    exact (spotEntry_injOn cfg hi (List.mem_range.mp hx) hi
      (List.mem_range.mp hy) hxy).2
  · rw [List.pairwise_map]
    have hp : (List.range cfg.rows).Pairwise (· ≠ ·) :=
      List.Pairwise.imp (fun h => Nat.ne_of_lt h) (List.pairwise_lt_range cfg.rows)
    refine List.Pairwise.imp_of_mem ?_ hp
    intro i i' hi hi' hne
    intro x hx hx'
    simp only [List.mem_map, List.mem_range] at hx hx'
    obtain ⟨j, hj, he⟩ := hx
    obtain ⟨j', hj', he'⟩ := hx'
    exact absurd (spotEntry_injOn cfg (List.mem_range.mp hi) hj
      (List.mem_range.mp hi') hj' (he.trans he'.symm)).1 hne

/-- C9: for every configuration with `rows ≥ 1` and `columns ≥ 1` and
every origin and ordering choice, the spot table is a `rows × columns`
matrix that contains each integer of `1..rows*columns` exactly once. -/
theorem C9_spot_table_bijection (cfg : GridConfig)
    (h1 : 1 ≤ cfg.rows) (h2 : 1 ≤ cfg.columns) :
    (spot_table cfg).length = cfg.rows ∧
    (∀ row ∈ spot_table cfg, row.length = cfg.columns) ∧
    (∀ n, 1 ≤ n → n ≤ cfg.rows * cfg.columns →
      (spot_table cfg).flatten.count n = 1) := by
  refine ⟨?_, ?_, ?_⟩
  · rw [spot_table_eq_map]
    simp
  · rw [spot_table_eq_map]
    intro row hrow
    simp only [List.mem_map, List.mem_range] at hrow
    obtain ⟨i, hi, rfl⟩ := hrow
    simp
  · intro n hn1 hn2
    apply List.count_eq_one_of_mem (spot_table_flatten_nodup cfg)
    rw [spot_table_eq_map]
    obtain ⟨i, hi, j, hj, he⟩ := spotEntry_surj cfg hn1 hn2
    simp only [List.mem_flatten, List.mem_map, List.mem_range]
    exact ⟨(List.range cfg.columns).map fun j => spotEntry cfg i j,
      ⟨i, hi, rfl⟩, by simp only [List.mem_map, List.mem_range]; exact ⟨j, hj, he⟩⟩

/-- C9 witness: the bijection theorem applied to the 2 × 3 bottom-right
by-rows configuration, evaluated at the table value 5. -/
theorem C9_witness :
    (spot_table ⟨2, 3, Origin.bottomRight, NumOrdering.byRows⟩).length = 2 ∧
    (spot_table ⟨2, 3, Origin.bottomRight, NumOrdering.byRows⟩).flatten.count 5 = 1 :=
  ⟨(C9_spot_table_bijection ⟨2, 3, Origin.bottomRight, NumOrdering.byRows⟩
      (by decide) (by decide)).1,
   (C9_spot_table_bijection ⟨2, 3, Origin.bottomRight, NumOrdering.byRows⟩
      (by decide) (by decide)).2.2 5 (by decide) (by decide)⟩

lemma spot_table_eq_swapped (cfg : GridConfig) :
    spot_table cfg = spot_table_spec_swapped cfg := by
  obtain ⟨r, c, o, ord⟩ := cfg
  cases ord <;> simp [spot_table, spot_table_spec_swapped, transposeM_reshape]

/-- Configuration for the C1 counterexample: 2 rows, 2 columns,
top-left origin, numbering by rows. -/
def cfgC1 : GridConfig := ⟨2, 2, Origin.topLeft, NumOrdering.byRows⟩

/-- C1 counterexample: for the 2 × 2 top-left by-rows configuration the
engine's spot table is `[[1, 3], [2, 4]]` (numbers run down the first
column first), while the procedure the claim describes — row-major
reshape when order is ByRows — yields `[[1, 2], [3, 4]]`: the claim has
the two order roles backwards. -/
theorem C1_counterexample :
    (build_grid_info cfgC1 0 0 1 1 10 10 2 2).toOption.map CPGridInfo.spot_table =
      some [[1, 3], [2, 4]] ∧
    spot_table_spec_claimed cfgC1 = [[1, 2], [3, 4]] ∧
    ([[1, 3], [2, 4]] : List (List ℕ)) ≠ [[1, 2], [3, 4]] := by
  refine ⟨?_, by decide, by decide⟩
  rw [build_grid_info_eq_ok cfgC1 0 0 1 1 10 10 2 2 (by decide) (by decide),
    toOption_map_ok]
  simp only [grid_of_spot_table, Option.some.injEq]
  decide

/-- C1 (amended): `build_grid_info` constructs the spot table from the
base sequence `1..rows*columns` by a row-major reshape when
`order = ByColumns` and a column-major reshape (reshape to
`(columns, rows)` then transpose) when `order = ByRows` — the opposite
association to the claim's — and then reverses the row axis exactly for
Bottom origins and the column axis exactly for Right origins. -/
theorem C1_spot_numbering_amended (cfg : GridConfig) (fx fy : ℚ) (fr fc : ℤ)
    (sx sy : ℚ) (sr sc : ℤ) (h1 : 1 ≤ cfg.rows) (h2 : 1 ≤ cfg.columns)
    (hc : (canonical_row_and_column cfg fr fc).2 ≠ (canonical_row_and_column cfg sr sc).2)
    (hr : (canonical_row_and_column cfg fr fc).1 ≠ (canonical_row_and_column cfg sr sc).1) :
    ∃ g, build_grid_info cfg fx fy fr fc sx sy sr sc = Except.ok g ∧
      g.spot_table = spot_table_spec_swapped cfg :=
  ⟨_, build_grid_info_eq_ok cfg fx fy fr fc sx sy sr sc hc hr,
    by rw [grid_of_spot_table, spot_table_eq_swapped]⟩

/-- C1 witness: the amended spot-numbering theorem applied to the
2 × 2 top-left by-rows configuration with reference points (0, 0, 1, 1)
and (10, 10, 2, 2). -/
theorem C1_witness :
    1 ≤ cfgC1.rows ∧ 1 ≤ cfgC1.columns ∧
    ∃ g, build_grid_info cfgC1 0 0 1 1 10 10 2 2 = Except.ok g ∧
      g.spot_table = spot_table_spec_swapped cfgC1 :=
  ⟨by decide, by decide,
   C1_spot_numbering_amended cfgC1 0 0 1 1 10 10 2 2 (by decide) (by decide)
     (by decide) (by decide)⟩

/-- The concrete-scenario configuration: 8 rows, 12 columns, top-left
origin, numbering by rows. -/
def cfgC2 : GridConfig := ⟨8, 12, Origin.topLeft, NumOrdering.byRows⟩

/-- C2 counterexample: in the concrete manual-mode scenario (rows=8,
columns=12, origin TopLeft, order ByRows, reference points
(10, 10, 1, 1) and (120, 80, 8, 12)) the engine's spot table has first
row `[1, 9, 17, ..., 89]`, not the claimed `[1, 2, ..., 12]`. -/
theorem C2_counterexample :
    (run_coordinates cfgC2 ⟨10, 10, 1, 1⟩ ⟨120, 80, 8, 12⟩).toOption.map
      (fun g => g.spot_table.getD 0 []) =
        some [1, 9, 17, 25, 33, 41, 49, 57, 65, 73, 81, 89] ∧
    ([1, 9, 17, 25, 33, 41, 49, 57, 65, 73, 81, 89] : List ℕ) ≠
      [1, 2, 3, 4, 5, 6, 7, 8, 9, 10, 11, 12] := by
  refine ⟨?_, by decide⟩
  unfold run_coordinates
  rw [build_grid_info_eq_ok cfgC2 10 10 1 1 120 80 8 12 (by decide) (by decide),
    toOption_map_ok]
  simp only [grid_of_spot_table, Option.some.injEq]
  decide

/-- C2 (amended): in the concrete manual-mode scenario the descriptor
has `xSpacing = ySpacing = 10`, origin (10, 10),
`xLocations = [10, ..., 120]`, `yLocations = [10, ..., 80]`, and spot
table rows 0 and 7 equal to `[1, 9, ..., 89]` and `[8, 16, ..., 96]`
(numbering runs down columns under ByRows), rather than the claimed
`[1, ..., 12]` and `[85, ..., 96]`. -/
theorem C2_concrete_scenario_amended :
    ∃ g, run_coordinates cfgC2 ⟨10, 10, 1, 1⟩ ⟨120, 80, 8, 12⟩ = Except.ok g ∧
      g.x_spacing = 10 ∧ g.y_spacing = 10 ∧
      g.x_location_of_lowest_x_spot = 10 ∧ g.y_location_of_lowest_y_spot = 10 ∧
      g.x_locations = [10, 20, 30, 40, 50, 60, 70, 80, 90, 100, 110, 120] ∧
      g.y_locations = [10, 20, 30, 40, 50, 60, 70, 80] ∧
      g.spot_table.getD 0 [] = [1, 9, 17, 25, 33, 41, 49, 57, 65, 73, 81, 89] ∧
      g.spot_table.getD 7 [] = [8, 16, 24, 32, 40, 48, 56, 64, 72, 80, 88, 96] := by
  refine ⟨grid_of cfgC2 10 10 (canonical_row_and_column cfgC2 1 1).1
      (canonical_row_and_column cfgC2 1 1).2
      ((10 - 120) / (((canonical_row_and_column cfgC2 1 1).2 : ℚ) -
        ((canonical_row_and_column cfgC2 8 12).2 : ℚ)))
      ((10 - 80) / (((canonical_row_and_column cfgC2 1 1).1 : ℚ) -
        ((canonical_row_and_column cfgC2 8 12).1 : ℚ))),
    build_grid_info_eq_ok cfgC2 10 10 1 1 120 80 8 12 (by decide) (by decide),
    ?_, ?_, ?_, ?_, ?_, ?_, ?_, ?_⟩
  · rw [grid_of_x_spacing]
    simp [canonical_row_and_column, cfgC2]
    norm_num
  · rw [grid_of_y_spacing]
    simp [canonical_row_and_column, cfgC2]
    norm_num
  · rw [grid_of_x_location]
    simp [canonical_row_and_column, cfgC2, pyInt]
  · rw [grid_of_y_location]
    simp [canonical_row_and_column, cfgC2, pyInt]
  · show (grid_of cfgC2 10 10 _ _ _ _).x_locations = _
    simp [grid_of, canonical_row_and_column, cfgC2, pyInt, List.range_succ]
    norm_num
  · show (grid_of cfgC2 10 10 _ _ _ _).y_locations = _
    simp [grid_of, canonical_row_and_column, cfgC2, pyInt, List.range_succ]
    norm_num
  · rw [grid_of_spot_table]
    decide
  · rw [grid_of_spot_table]
    decide

end DefineGridModel
